import Mathlib

/-
Verification of the sheet-name extraction scripts `inspect_xlsx.py` and
`inspect_xlsx_advanced.py`.  Text is modelled as `List Char`, archive member
bytes as `List Nat`, and each of the three regular-expression operations of
the scripts is embedded directly, with Python's leftmost, greedy,
backtracking semantics for the concrete patterns involved.
-/

namespace Xlsx

/-- Bytes of an archive member: one natural number (0 to 255) per byte. -/
abbrev Bytes := List Nat

/-- The fixed member path `xl/workbook.xml` both scripts look up in the
archive (line 27 of `inspect_xlsx.py`, line 13 of `inspect_xlsx_advanced.py`). -/
def wbName : List Char := "xl/workbook.xml".data

/-- The literal head `<sheet ` shared by the patterns
`<sheet [^>]*name="([^"]+)"` (simple script, line 32) and
`<sheet [^>]*>` (advanced script, line 18). -/
def sheetOpen : List Char := "<sheet ".data

/-- The literal `name="` that precedes the name capture in both scripts. -/
def nameLit : List Char := "name=\"".data

/-- The literal `state="` that precedes the state capture in the advanced
script (line 21). -/
def stateLit : List Char := "state=\"".data

/-- The double-quote character, code point 34. -/
def quoteChar : Char := Char.ofNat 34

/-- Matching of `pat` followed by `([^"]+)"` at the head of `s`:
the literal `pat` must be a prefix, the capture is the maximal nonempty run
of characters other than the quote, and the run must be terminated by a
quote.  Returns the capture together with the text after the closing quote.
Greediness of `[^"]+` is deterministic here: any shorter capture would have
to be followed by a quote yet is followed by a non-quote character. -/
def captureAt (pat s : List Char) : Option (List Char × List Char) :=
  if pat.isPrefixOf s then
    let rest := s.drop pat.length
    let cap := rest.takeWhile (fun c => c != quoteChar)
    match rest.drop cap.length with
    | c :: tail => if cap ≠ [] ∧ c = quoteChar then some (cap, tail) else none
    | [] => none
  else none

/-- Backtracking for `[^>]*` followed by `pat` and a quoted capture:
Python's greedy star tries the longest extent first, so the largest
`k ≤ fuel` for which the capture succeeds at `s7.drop k` wins.  `s7` is the
text right after the literal `<sheet `, and the initial `k` is the length of
the maximal `>`-free span, so every tried extent stays inside `[^>]*`. -/
def bestCapture (pat s7 : List Char) : Nat → Option (List Char × List Char)
  | 0 => captureAt pat s7
  | k + 1 =>
    match captureAt pat (s7.drop (k + 1)) with
    | some r => some r
    | none => bestCapture pat s7 k

/-- One attempted match of the simple script's pattern
`<sheet [^>]*name="([^"]+)"` (line 32 of `inspect_xlsx.py`) at the head of
`s`.  Returns the captured sheet name and the text after the full match. -/
def matchSimpleAt (s : List Char) : Option (List Char × List Char) :=
  if sheetOpen.isPrefixOf s then
    let s7 := s.drop sheetOpen.length
    bestCapture nameLit s7 (s7.takeWhile (fun c => c != '>')).length
  else none

/-- One attempted match of the advanced script's pattern `<sheet [^>]*>`
(line 18 of `inspect_xlsx_advanced.py`) at the head of `s`.  The star cannot
cross a `>`, so the match runs to the first `>` after the literal head.
Returns the whole matched tag and the text after it. -/
def matchTagAt (s : List Char) : Option (List Char × List Char) :=
  if sheetOpen.isPrefixOf s then
    let rest := s.drop sheetOpen.length
    let body := rest.takeWhile (fun c => c != '>')
    match rest.drop body.length with
    | c :: tail => if c = '>' then some (sheetOpen ++ body ++ [c], tail) else none
    | [] => none
  else none

/-- Scan of `re.findall` for the simple pattern: try a match at every
position from left to right, and after a (necessarily nonempty) match resume
after it.  The fuel starts at the text length, which every recursive call
strictly preserves as an upper bound of the remaining text, so it never
runs out before the text does. -/
def findallSimpleAux : Nat → List Char → List (List Char)
  | 0, _ => []
  | _ + 1, [] => []
  | fuel + 1, c :: rest =>
    match matchSimpleAt (c :: rest) with
    | some (cap, remainder) => cap :: findallSimpleAux fuel remainder
    | none => findallSimpleAux fuel rest

/-- `re.findall(r'<sheet [^>]*name="([^"]+)"', content)` of the simple
script: the ordered list of captured sheet names. -/
def findallSimple (content : List Char) : List (List Char) :=
  findallSimpleAux content.length content

/-- Scan of `re.findall` for the advanced tag pattern, as in
`findallSimpleAux`. -/
def findallTagsAux : Nat → List Char → List (List Char)
  | 0, _ => []
  | _ + 1, [] => []
  | fuel + 1, c :: rest =>
    match matchTagAt (c :: rest) with
    | some (tag, remainder) => tag :: findallTagsAux fuel remainder
    | none => findallTagsAux fuel rest

/-- `re.findall(r'<sheet [^>]*>', content)` of the advanced script: the
ordered list of whole matched sheet tags. -/
def findallTags (content : List Char) : List (List Char) :=
  findallTagsAux content.length content

/-- `re.search(pat + quoted capture, tag)`: the leftmost position where the
literal and its nonempty quoted capture match, returning the first capture
(group 1), as in lines 20 and 21 of `inspect_xlsx_advanced.py`. -/
def searchCapture (pat : List Char) : List Char → Option (List Char)
  | [] => none
  | c :: rest =>
    match captureAt pat (c :: rest) with
    | some (cap, _) => some cap
    | none => searchCapture pat rest

/-- Extracted record of the advanced script: sheet name and visibility
state (spec section 3, SheetDescriptor). -/
structure SheetDescriptor where
  name : List Char
  state : List Char
deriving DecidableEq

/-- Lines 20 to 24 of `inspect_xlsx_advanced.py`: the name is the first
`name="..."` capture in the tag, defaulting to `Unknown`; the state is the
first `state="..."` capture, defaulting to `visible`. -/
def parseTag (tag : List Char) : SheetDescriptor :=
  { name := (searchCapture nameLit tag).getD ("Unknown".data)
    state := (searchCapture stateLit tag).getD ("visible".data) }

/-- Whether a byte is a UTF-8 continuation byte (0x80 to 0xBF). -/
def contByte (b : Nat) : Bool := decide (128 ≤ b) && decide (b < 192)

/-- Strict UTF-8 decoding of a byte sequence, as `bytes.decode('utf-8')`:
rejects stray continuation bytes, overlong encodings, surrogate code points
and code points beyond 0x10FFFF; `none` models a raised
`UnicodeDecodeError`. -/
def decodeUtf8 : Bytes → Option (List Char)
  | [] => some []
  | b :: rest =>
    if b < 128 then (decodeUtf8 rest).map (fun cs => Char.ofNat b :: cs)
    else if b < 194 then none
    else if b < 224 then
      match rest with
      | b1 :: rest1 =>
        if contByte b1 then
          (decodeUtf8 rest1).map (fun cs => Char.ofNat ((b - 192) * 64 + (b1 - 128)) :: cs)
        else none
      | [] => none
    else if b < 240 then
      match rest with
      | b1 :: b2 :: rest2 =>
        if contByte b1 && contByte b2 then
          let cp := (b - 224) * 4096 + (b1 - 128) * 64 + (b2 - 128)
          if cp < 2048 || (55296 ≤ cp && cp < 57344 : Bool) then none
          else (decodeUtf8 rest2).map (fun cs => Char.ofNat cp :: cs)
        else none
      | _ => none
    else if b < 245 then
      match rest with
      | b1 :: b2 :: b3 :: rest3 =>
        if contByte b1 && contByte b2 && contByte b3 then
          let cp := (b - 240) * 262144 + (b1 - 128) * 4096 + (b2 - 128) * 64 + (b3 - 128)
          if cp < 65536 || (1114112 ≤ cp : Bool) then none
          else (decodeUtf8 rest3).map (fun cs => Char.ofNat cp :: cs)
        else none
      | _ => none
    else none

/-- ASCII text encoded as bytes, for building concrete archive members. -/
def asciiBytes (s : List Char) : Bytes := s.map Char.toNat

/-- A zip archive: its ordered member list, each member a path with its
uncompressed bytes. -/
structure ZipArchive where
  entries : List (List Char × Bytes)
deriving DecidableEq

/-- `z.namelist()`: the member paths in archive order. -/
def namelist (z : ZipArchive) : List (List Char) := z.entries.map Prod.fst

/-- `z.open(nm)` followed by `.read()`: the bytes of the first member called
`nm`.  The scripts only call this after checking `nm in z.namelist()`, so
the default for an absent member is never reached under that guard. -/
def readMember (z : ZipArchive) (nm : List Char) : Bytes :=
  ((z.entries.find? (fun e => e.fst == nm)).map Prod.snd).getD []

/-- What the file at the hardcoded path is: absent, present but not a valid
zip container (`zipfile.ZipFile` raises `BadZipFile`), or a valid archive. -/
inductive FileKind where
  | missing
  | notZip
  | zip (z : ZipArchive)
deriving DecidableEq

/-- `os.path.exists(file_path)` (line 40 of `inspect_xlsx.py`, line 32 of
`inspect_xlsx_advanced.py`). -/
def fileExists : FileKind → Bool
  | .missing => false
  | _ => true

/-- The exceptions the readers' `except Exception` clause can catch here:
`FileNotFoundError` or `BadZipFile` from `zipfile.ZipFile`, and
`UnicodeDecodeError` from `.decode('utf-8')`. -/
inductive PyErr where
  | fileMissing
  | badZip
  | decodeFail
deriving DecidableEq

/-- `zipfile.ZipFile(file_path, 'r')`: the archive, or the raised
exception. -/
def openZip : FileKind → Except PyErr ZipArchive
  | .missing => .error .fileMissing
  | .notZip => .error .badZip
  | .zip z => .ok z

/-- One printed line of either script.  Error lines (`zipfile error: {e}`
and `openpyxl error: {e}`) carry exception-dependent message text and are
kept symbolic. -/
inductive Line where
  | methodOpenpyxl
  | methodFallback
  | sheet (name : List Char)
  | sheetState (name state : List Char)
  | memberMissing
  | zipError (e : PyErr)
  | openpyxlError
  | notFound (path : List Char)
deriving DecidableEq

/-- The literal text of a printed line, where it is determined by the
payload; `none` for the two error lines whose text interpolates an
exception object. -/
def Line.render : Line → Option (List Char)
  | .methodOpenpyxl => some ("Method: openpyxl".data)
  | .methodFallback => some ("Method: zipfile (fallback)".data)
  | .sheet n => some ("Sheet: ".data ++ n)
  | .sheetState n s => some ("Sheet: ".data ++ n ++ " (State: ".data ++ s ++ ")".data)
  | .memberMissing => some ("Error: xl/workbook.xml not found in zip.".data)
  | .zipError _ => none
  | .openpyxlError => none
  | .notFound p => some ("File not found: ".data ++ p)

/-- Whether a line is a `Sheet:` line (either variant's per-sheet print). -/
def Line.isSheet : Line → Bool
  | .sheet _ => true
  | .sheetState _ _ => true
  | _ => false

/-- The line `print(f"Sheet: {name} (State: {state})")` produced for one
matched tag (line 26 of `inspect_xlsx_advanced.py`). -/
def tagLine (tag : List Char) : Line :=
  Line.sheetState (parseTag tag).name (parseTag tag).state

/-- The body of the `try:` block of the advanced script's `inspect_via_zip`
(lines 10 to 28): open the archive, check for the workbook member, decode
it, and print one line per matched tag; an `error` result is an exception
reaching the `except` clause. -/
def tryBodyAdv (file : FileKind) : Except PyErr (List Line) :=
  match openZip file with
  | .error e => .error e
  | .ok z =>
    if (namelist z).contains wbName then
      match decodeUtf8 (readMember z wbName) with
      | some content => .ok ((findallTags content).map tagLine)
      | none => .error PyErr.decodeFail
    else .ok [Line.memberMissing]

/-- `inspect_via_zip` of `inspect_xlsx_advanced.py` (lines 8 to 30): the
method banner, then the try body's lines, with any exception caught and
reported as a `zipfile error:` line. -/
def inspect_via_zip_adv (file : FileKind) : List Line :=
  Line.methodFallback ::
    match tryBodyAdv file with
    | .ok ls => ls
    | .error e => [Line.zipError e]

/-- The body of the `try:` block of the simple script's `inspect_via_zip`
(lines 24 to 36): as the advanced one, but printing `Sheet: {name}` per
captured name of the one-pass pattern. -/
def tryBodySimple (file : FileKind) : Except PyErr (List Line) :=
  match openZip file with
  | .error e => .error e
  | .ok z =>
    if (namelist z).contains wbName then
      match decodeUtf8 (readMember z wbName) with
      | some content => .ok ((findallSimple content).map Line.sheet)
      | none => .error PyErr.decodeFail
    else .ok [Line.memberMissing]

/-- `inspect_via_zip` of `inspect_xlsx.py` (lines 22 to 38). -/
def inspect_via_zip_simple (file : FileKind) : List Line :=
  Line.methodFallback ::
    match tryBodySimple file with
    | .ok ls => ls
    | .error e => [Line.zipError e]

/-- Outcome of `inspect_via_openpyxl` of `inspect_xlsx.py` (lines 8 to 20):
the library is not importable, loading the workbook raised, or loading
succeeded with these sheet names. -/
inductive OpenpyxlOutcome where
  | unavailable
  | loadFail
  | ok (sheets : List (List Char))
deriving DecidableEq

/-- `inspect_via_openpyxl`: its printed lines and its boolean result.
An `ImportError` prints nothing and returns `False`; any other load
exception prints the `openpyxl error:` line and returns `False`; success
prints the banner and one `Sheet:` line per sheet and returns `True`. -/
def inspect_via_openpyxl : OpenpyxlOutcome → List Line × Bool
  | .unavailable => ([], false)
  | .loadFail => ([Line.openpyxlError], false)
  | .ok sheets => (Line.methodOpenpyxl :: sheets.map Line.sheet, true)

/-- The whole run of a script: its printed lines and its exit code. -/
structure ProgResult where
  output : List Line
  exitCode : Nat
deriving DecidableEq

/-- Top level of `inspect_xlsx.py` (lines 40 to 45): existence check with
`sys.exit(1)` on failure, then the openpyxl attempt, then the zip fallback
when that attempt reports failure; the implicit exit code is 0. -/
def main_simple (path : List Char) (file : FileKind) (env : OpenpyxlOutcome) :
    ProgResult :=
  if fileExists file then
    match inspect_via_openpyxl env with
    | (out1, true) => { output := out1, exitCode := 0 }
    | (out1, false) => { output := out1 ++ inspect_via_zip_simple file, exitCode := 0 }
  else { output := [Line.notFound path], exitCode := 1 }

/-- Top level of `inspect_xlsx_advanced.py` (lines 32 to 36): existence
check with `sys.exit(1)` on failure, then the zip fallback unconditionally;
the implicit exit code is 0. -/
def main_advanced (path : List Char) (file : FileKind) : ProgResult :=
  if fileExists file then
    { output := inspect_via_zip_adv file, exitCode := 0 }
  else { output := [Line.notFound path], exitCode := 1 }

/-- The hardcoded target path of both scripts (line 6 of each). -/
def defaultPath : List Char := "App Database.xlsx".data

/-- The spec's example workbook content (section 8). -/
def content7 : List Char :=
  "<sheet name=\"Sheet1\" sheetId=\"1\" state=\"hidden\" r:id=\"rId1\"/><sheet name=\"Data\"/>".data

/-- The same content with the first tag's attributes reordered. -/
def content7r : List Char :=
  "<sheet state=\"hidden\" name=\"Sheet1\" sheetId=\"1\" r:id=\"rId1\"/><sheet name=\"Data\"/>".data

/-- A valid archive whose workbook member holds `content7`. -/
def archive7 : ZipArchive := ⟨[(wbName, asciiBytes content7)]⟩

/-- A valid archive whose workbook member holds `content7r`. -/
def archive7r : ZipArchive := ⟨[(wbName, asciiBytes content7r)]⟩

/-- The spec's round-trip example tag with a state attribute. -/
def tagFoo : List Char := "<sheet name=\"Foo\" state=\"hidden\"/>".data

/-- The spec's round-trip example tag without a state attribute. -/
def tagBar : List Char := "<sheet name=\"Bar\"/>".data

/-- A valid archive whose workbook member holds the two round-trip tags. -/
def archive2 : ZipArchive := ⟨[(wbName, asciiBytes (tagFoo ++ tagBar))]⟩

/-- A valid archive with no `xl/workbook.xml` member. -/
def archive4 : ZipArchive := ⟨[(("docProps/app.xml".data), [])]⟩

/-- A valid archive whose workbook member is the invalid UTF-8 byte 0xFF. -/
def archive5 : ZipArchive := ⟨[(wbName, [255])]⟩

/-- A matched sheet tag with a state attribute but no name attribute. -/
def content9 : List Char := "<sheet state=\"hidden\">".data

/-- A valid archive whose workbook member holds `content9`. -/
def archive9 : ZipArchive := ⟨[(wbName, asciiBytes content9)]⟩

/-- A matched sheet tag with neither a name nor a state attribute. -/
def tagNoName : List Char := "<sheet foo=\"1\">".data

/-- A valid archive whose workbook member holds `tagNoName`. -/
def archive9b : ZipArchive := ⟨[(wbName, asciiBytes tagNoName)]⟩

/-- A tag whose longer attribute `codeName` has a capital N, so it does not
contain the lowercase substring the name pattern looks for. -/
def tagCode : List Char := "<sheet codeName=\"X\" name=\"Y\"/>".data

/-- A tag whose longer attribute `myname` does contain the lowercase
substring the name pattern looks for. -/
def tagMyname : List Char := "<sheet myname=\"X\" name=\"Y\"/>".data

/-- Helper: the per-tag line of the advanced reader is a `Sheet:` line. -/
theorem isSheet_tagLine (t : List Char) : Line.isSheet (tagLine t) = true := rfl

/-- Helper: the per-name line of the simple reader is a `Sheet:` line. -/
theorem isSheet_sheetLine (n : List Char) : Line.isSheet (Line.sheet n) = true := rfl

/-- Helper: filtering `Sheet:` lines out of a list that consists only of
`Sheet:` lines keeps all of it. -/
theorem filter_isSheet_map {α : Type} (f : α → Line)
    (hf : ∀ a, Line.isSheet (f a) = true) (l : List α) :
    (l.map f).filter Line.isSheet = l.map f := by
  induction l with
  | nil => rfl
  | cons x xs ih => simp [List.map_cons, List.filter_cons, hf x, ih]

/-- Helper: shape of the advanced reader's output on a valid archive whose
workbook member is present and decodes. -/
theorem adv_output_ok (z : ZipArchive) (content : List Char)
    (hmem : (namelist z).contains wbName = true)
    (hdec : decodeUtf8 (readMember z wbName) = some content) :
    inspect_via_zip_adv (FileKind.zip z)
      = Line.methodFallback :: (findallTags content).map tagLine := by
  have hm : wbName ∈ namelist z := by simpa using hmem
  unfold inspect_via_zip_adv tryBodyAdv openZip
  simp [hm, hdec]

/-- Helper: shape of the simple reader's output on a valid archive whose
workbook member is present and decodes. -/
theorem simple_output_ok (z : ZipArchive) (content : List Char)
    (hmem : (namelist z).contains wbName = true)
    (hdec : decodeUtf8 (readMember z wbName) = some content) :
    inspect_via_zip_simple (FileKind.zip z)
      = Line.methodFallback :: (findallSimple content).map Line.sheet := by
  have hm : wbName ∈ namelist z := by simpa using hmem
  unfold inspect_via_zip_simple tryBodySimple openZip
  simp [hm, hdec]

/-- C1: for every valid archive whose `xl/workbook.xml` member is present
and decodes to `content`, the `Sheet:` lines of each fallback reader are
exactly one line per regex match in `content`, in match order: the advanced
reader prints the rendering of each matched `<sheet ...>` tag and the
simple reader each captured name; in particular the number of `Sheet:`
lines equals the number of matches. -/
theorem C1_sheet_lines_match_tags (z : ZipArchive) (content : List Char)
    (hmem : (namelist z).contains wbName = true)
    (hdec : decodeUtf8 (readMember z wbName) = some content) :
    (inspect_via_zip_adv (FileKind.zip z)).filter Line.isSheet
        = (findallTags content).map tagLine
    ∧ ((inspect_via_zip_adv (FileKind.zip z)).filter Line.isSheet).length
        = (findallTags content).length
    ∧ (inspect_via_zip_simple (FileKind.zip z)).filter Line.isSheet
        = (findallSimple content).map Line.sheet
    ∧ ((inspect_via_zip_simple (FileKind.zip z)).filter Line.isSheet).length
        = (findallSimple content).length := by
  have ha := adv_output_ok z content hmem hdec
  have hs := simple_output_ok z content hmem hdec
  have h1 : (inspect_via_zip_adv (FileKind.zip z)).filter Line.isSheet
      = (findallTags content).map tagLine := by
    rw [ha, List.filter_cons]
    simp [Line.isSheet, filter_isSheet_map tagLine isSheet_tagLine]
  have h3 : (inspect_via_zip_simple (FileKind.zip z)).filter Line.isSheet
      = (findallSimple content).map Line.sheet := by
    rw [hs, List.filter_cons]
    simp [Line.isSheet, filter_isSheet_map Line.sheet isSheet_sheetLine]
  refine ⟨h1, ?_, h3, ?_⟩
  · rw [h1]; simp
  · rw [h3]; simp

/-- C1 witness: the spec's example content inside a concrete archive. -/
theorem C1_witness :
    (namelist archive7).contains wbName = true
    ∧ decodeUtf8 (readMember archive7 wbName) = some content7
    ∧ (inspect_via_zip_adv (FileKind.zip archive7)).filter Line.isSheet
        = (findallTags content7).map tagLine :=
  ⟨by decide, by decide,
    (C1_sheet_lines_match_tags archive7 content7 (by decide) (by decide)).1⟩

/-- C2: a tag with `name="Foo" state="hidden"` yields the descriptor with
name `Foo` and state `hidden`, printed as `Sheet: Foo (State: hidden)`; a
tag with only `name="Bar"` yields name `Bar` and the default state
`visible`, printed as `Sheet: Bar (State: visible)`; through the whole
advanced reader, the archive holding the two tags prints exactly those two
lines after the method banner. -/
theorem C2_round_trip :
    parseTag tagFoo = { name := ("Foo".data), state := ("hidden".data) }
    ∧ parseTag tagBar = { name := ("Bar".data), state := ("visible".data) }
    ∧ Line.render (tagLine tagFoo) = some ("Sheet: Foo (State: hidden)".data)
    ∧ Line.render (tagLine tagBar) = some ("Sheet: Bar (State: visible)".data)
    ∧ inspect_via_zip_adv (FileKind.zip archive2)
        = [Line.methodFallback,
           Line.sheetState ("Foo".data) ("hidden".data),
           Line.sheetState ("Bar".data) ("visible".data)] := by
  decide

/-- C3: when the file is missing, each script prints only the line
`File not found: <path>` and exits with code 1; neither reader runs and no
other output is produced. -/
theorem C3_missing_file (path : List Char) (env : OpenpyxlOutcome) :
    main_simple path FileKind.missing env
        = { output := [Line.notFound path], exitCode := 1 }
    ∧ main_advanced path FileKind.missing
        = { output := [Line.notFound path], exitCode := 1 }
    ∧ Line.render (Line.notFound path) = some (("File not found: ".data) ++ path) := by
  refine ⟨?_, ?_, rfl⟩
  · simp [main_simple, fileExists]
  · simp [main_advanced, fileExists]

/-- C4 counterexample: on a concrete valid archive without the workbook
member, the fallback reader's output is not the single error line: the
method banner precedes it. -/
theorem C4_counterexample :
    (namelist archive4).contains wbName = false
    ∧ inspect_via_zip_adv (FileKind.zip archive4)
        = [Line.methodFallback, Line.memberMissing]
    ∧ inspect_via_zip_adv (FileKind.zip archive4) ≠ [Line.memberMissing]
    ∧ inspect_via_zip_simple (FileKind.zip archive4) ≠ [Line.memberMissing] := by
  decide

/-- C4 as amended: for every valid archive without the workbook member,
each fallback reader's output is the method banner followed by the single
line `Error: xl/workbook.xml not found in zip.`, and contains no `Sheet:`
lines. -/
theorem C4_member_missing (z : ZipArchive)
    (hmem : (namelist z).contains wbName = false) :
    inspect_via_zip_adv (FileKind.zip z)
        = [Line.methodFallback, Line.memberMissing]
    ∧ inspect_via_zip_simple (FileKind.zip z)
        = [Line.methodFallback, Line.memberMissing]
    ∧ (inspect_via_zip_adv (FileKind.zip z)).filter Line.isSheet = []
    ∧ (inspect_via_zip_simple (FileKind.zip z)).filter Line.isSheet = [] := by
  have hm : wbName ∉ namelist z := by simpa using hmem
  have ha : inspect_via_zip_adv (FileKind.zip z)
      = [Line.methodFallback, Line.memberMissing] := by
    unfold inspect_via_zip_adv tryBodyAdv openZip
    simp [hm]
  have hs : inspect_via_zip_simple (FileKind.zip z)
      = [Line.methodFallback, Line.memberMissing] := by
    unfold inspect_via_zip_simple tryBodySimple openZip
    simp [hm]
  exact ⟨ha, hs, by rw [ha]; rfl, by rw [hs]; rfl⟩

/-- C4 witness: the amended statement at the concrete memberless archive. -/
theorem C4_witness :
    inspect_via_zip_adv (FileKind.zip archive4)
      = [Line.methodFallback, Line.memberMissing] :=
  (C4_member_missing archive4 (by decide)).1

/-- C5 counterexample: on a concrete archive whose workbook member is the
invalid UTF-8 byte 0xFF, the decode failure does not propagate: the
catch-all handler reports it as a `zipfile error:` line, the reader
completes, and the process exits with code 0. -/
theorem C5_counterexample :
    decodeUtf8 (readMember archive5 wbName) = none
    ∧ inspect_via_zip_adv (FileKind.zip archive5)
        = [Line.methodFallback, Line.zipError PyErr.decodeFail]
    ∧ inspect_via_zip_simple (FileKind.zip archive5)
        = [Line.methodFallback, Line.zipError PyErr.decodeFail]
    ∧ (main_advanced defaultPath (FileKind.zip archive5)).exitCode = 0 := by
  decide

/-- C5 as amended: for every archive whose workbook member is present but
fails UTF-8 decoding, the error is caught by the reader's catch-all
`except` clause and reported as a `zipfile error:` line after the method
banner; the reader terminates normally and the process exit code is 0. -/
theorem C5_decode_error_caught (z : ZipArchive) (path : List Char)
    (env : OpenpyxlOutcome)
    (hmem : (namelist z).contains wbName = true)
    (hdec : decodeUtf8 (readMember z wbName) = none) :
    inspect_via_zip_adv (FileKind.zip z)
        = [Line.methodFallback, Line.zipError PyErr.decodeFail]
    ∧ inspect_via_zip_simple (FileKind.zip z)
        = [Line.methodFallback, Line.zipError PyErr.decodeFail]
    ∧ (main_advanced path (FileKind.zip z)).exitCode = 0
    ∧ (main_simple path (FileKind.zip z) env).exitCode = 0 := by
  have hm : wbName ∈ namelist z := by simpa using hmem
  refine ⟨?_, ?_, ?_, ?_⟩
  · unfold inspect_via_zip_adv tryBodyAdv openZip
    simp [hm, hdec]
  · unfold inspect_via_zip_simple tryBodySimple openZip
    simp [hm, hdec]
  · simp [main_advanced, fileExists]
  · cases env <;> simp [main_simple, fileExists, inspect_via_openpyxl]

/-- C5 witness: the amended statement at the concrete invalid-byte
archive. -/
theorem C5_witness :
    inspect_via_zip_adv (FileKind.zip archive5)
      = [Line.methodFallback, Line.zipError PyErr.decodeFail] :=
  (C5_decode_error_caught archive5 defaultPath OpenpyxlOutcome.unavailable
    (by decide) (by decide)).1

/-- C6: each script's exit code is 1 exactly when the file is missing and
0 otherwise, including when an archive-read error is caught and printed. -/
theorem C6_exit_codes (path : List Char) (file : FileKind)
    (env : OpenpyxlOutcome) :
    (main_advanced path file).exitCode = (if fileExists file then 0 else 1)
    ∧ (main_simple path file env).exitCode = (if fileExists file then 0 else 1) := by
  cases file <;> cases env <;>
    simp [main_advanced, main_simple, fileExists, inspect_via_openpyxl]

/-- C7: on the spec's example content, and on the same content with the
first tag's attributes reordered, the advanced reader prints exactly
`Sheet: Sheet1 (State: hidden)` then `Sheet: Data (State: visible)` after
the banner, and the simple reader captures the same two names; matching
tolerates the extra attributes `sheetId` and `r:id`. -/
theorem C7_attribute_order :
    inspect_via_zip_adv (FileKind.zip archive7)
        = [Line.methodFallback,
           Line.sheetState ("Sheet1".data) ("hidden".data),
           Line.sheetState ("Data".data) ("visible".data)]
    ∧ inspect_via_zip_adv (FileKind.zip archive7r)
        = [Line.methodFallback,
           Line.sheetState ("Sheet1".data) ("hidden".data),
           Line.sheetState ("Data".data) ("visible".data)]
    ∧ inspect_via_zip_simple (FileKind.zip archive7)
        = [Line.methodFallback, Line.sheet ("Sheet1".data), Line.sheet ("Data".data)]
    ∧ inspect_via_zip_simple (FileKind.zip archive7r)
        = [Line.methodFallback, Line.sheet ("Sheet1".data), Line.sheet ("Data".data)]
    ∧ (inspect_via_zip_adv (FileKind.zip archive7)).map Line.render
        = [some ("Method: zipfile (fallback)".data),
           some ("Sheet: Sheet1 (State: hidden)".data),
           some ("Sheet: Data (State: visible)".data)] := by
  decide

/-- C8: the extraction is a pure function of the archive contents, so two
runs of either reader, or of either whole script, on the same unmodified
file yield identical output. -/
theorem C8_deterministic (file : FileKind) (path : List Char)
    (env : OpenpyxlOutcome) :
    inspect_via_zip_adv file = inspect_via_zip_adv file
    ∧ inspect_via_zip_simple file = inspect_via_zip_simple file
    ∧ main_advanced path file = main_advanced path file
    ∧ main_simple path file env = main_simple path file env :=
  ⟨rfl, rfl, rfl, rfl⟩

/-- C9 counterexample: the tag `<sheet state="hidden">` is matched, has no
name attribute, yet the advanced reader prints
`Sheet: Unknown (State: hidden)`, not `Sheet: Unknown (State: visible)`. -/
theorem C9_counterexample :
    findallTags content9 = [content9]
    ∧ searchCapture nameLit content9 = none
    ∧ inspect_via_zip_adv (FileKind.zip archive9)
        = [Line.methodFallback,
           Line.sheetState ("Unknown".data) ("hidden".data)]
    ∧ Line.sheetState ("Unknown".data) ("visible".data)
        ∉ inspect_via_zip_adv (FileKind.zip archive9) := by
  decide

/-- C9 as amended: a matched tag with no name-attribute match prints
`Sheet: Unknown (State: s)` with `s` the extracted state, in particular
`Sheet: Unknown (State: visible)` when there is also no state-attribute
match; on the archive holding only `<sheet foo="1">` the advanced reader
prints one `Sheet:` line while the simple reader prints none, so the two
variants report different sheet counts. -/
theorem C9_unknown_sentinel (t : List Char)
    (hname : searchCapture nameLit t = none)
    (hstate : searchCapture stateLit t = none) :
    tagLine t = Line.sheetState ("Unknown".data) ("visible".data)
    ∧ ((inspect_via_zip_adv (FileKind.zip archive9b)).filter Line.isSheet).length = 1
    ∧ ((inspect_via_zip_simple (FileKind.zip archive9b)).filter Line.isSheet).length = 0 := by
  refine ⟨?_, by decide, by decide⟩
  simp [tagLine, parseTag, hname, hstate]

/-- C9 witness: the amended statement at the concrete attribute-free tag. -/
theorem C9_witness :
    tagLine tagNoName = Line.sheetState ("Unknown".data) ("visible".data) :=
  (C9_unknown_sentinel tagNoName (by decide) (by decide)).1

/-- C10 counterexample: on the claim's tag
`<sheet codeName="X" name="Y"/>` the printed name is `Y`, not `X`: matching
is case-sensitive and `codeName` does not contain the lowercase substring
the pattern looks for. -/
theorem C10_counterexample :
    (parseTag tagCode).name = ("Y".data)
    ∧ (parseTag tagCode).name ≠ ("X".data) := by
  decide

/-- C10 as amended: the name is taken from the first substring occurrence
of the lowercase pattern anywhere in the tag, including inside a longer
attribute name: for `<sheet myname="X" name="Y"/>` the printed name is `X`,
captured inside `myname`, not `Y`; for the case-mismatched
`<sheet codeName="X" name="Y"/>` it is `Y`. -/
theorem C10_longer_attribute :
    parseTag tagMyname = { name := ("X".data), state := ("visible".data) }
    ∧ tagLine tagMyname = Line.sheetState ("X".data) ("visible".data)
    ∧ (parseTag tagCode).name = ("Y".data) := by
  decide

end Xlsx
